import Mathlib

/-!
Verification of the TensorRT execution-provider sample
  (`samples/tensorRTEp/tensorrt_execution_provider.cc`).

This development gives a shallow embedding of the compile-and-run pipeline of
the TensorRT execution provider sample and proves (or refutes) the frozen
specification claims about it.  Machine integers are modelled as `Int` with the
relevant C limits made explicit; fallible C functions returning
`OrtStatusPtr` (null = success) are modelled with the `Status` type below;
stateful fragments are modelled by explicit state passing or by event traces.
-/

namespace TrtEp

/-- Outcome of a C function returning `OrtStatusPtr`: `ok` models a null
status pointer (success), `fail msg` models `api_->CreateStatus(..., msg)`. -/
inductive Status where
  | ok : Status
  | fail (msg : String) : Status
deriving DecidableEq, Repr

/-- C `INT_MAX` (32-bit), used for the sentinel shape-range triple. -/
def INT_MAX : Int := 2147483647

/-- C `INT_MIN` (32-bit), used for the sentinel shape-range triple. -/
def INT_MIN : Int := -2147483648

/-! ## Cross-device copy (`OrtExecutionProvider::CopyTensor`, lines 544-573)

The lambda dispatches on `source_device_type` / `target_device_type`
(`OrtMemoryInfoDeviceType`) and on `source_mem_type` (`OrtMemoryType`); the
target memory type is not a parameter of the C callback.  We model the CUDA
calls it performs as an event trace. -/

/-- `OrtMemoryInfoDeviceType` as used by `CopyTensor`. -/
inductive DeviceType where
  | cpu
  | gpu
  | fpga
deriving DecidableEq, Repr

/-- `OrtMemoryType` as used by `CopyTensor`: CUDA-pinned host memory or
anything else. -/
inductive MemType where
  | cudaPinned
  | other
deriving DecidableEq, Repr

/-- `cudaMemcpyKind` values that appear in `CopyTensor`. -/
inductive MemcpyKind where
  | deviceToDevice
  | hostToDevice
  | deviceToHost
deriving DecidableEq, Repr

/-- One CUDA/host call made by `CopyTensor`.  `streamSynchronize true` is a
synchronize of the caller-supplied stream, `streamSynchronize false` is
`cudaStreamSynchronize(nullptr)` (the null/default stream). -/
inductive CopyAction where
  | memcpyAsync (kind : MemcpyKind)
  | memcpySync (kind : MemcpyKind)
  | streamSynchronize (suppliedStream : Bool)
  | hostMemcpy
deriving DecidableEq, Repr

/-- Shallow embedding of the `CopyTensor` lambda (lines 544-573): returns the
sequence of CUDA/host calls it performs.  `hasStream` is whether the `stream`
argument is non-null, `srcEqDst` is whether `src == dst`. -/
def CopyTensor (srcDev dstDev : DeviceType) (srcMem : MemType)
    (hasStream : Bool) (srcEqDst : Bool) : List CopyAction :=
  if srcDev = .gpu ∧ dstDev = .gpu then
    if srcEqDst then []
    else if hasStream then [.memcpyAsync .deviceToDevice]
    else [.memcpySync .deviceToDevice]
  else if srcDev = .cpu ∧ dstDev = .gpu then
    if hasStream then [.memcpyAsync .hostToDevice]
    else [.memcpySync .hostToDevice, .streamSynchronize false]
  else if srcDev = .gpu ∧ dstDev = .cpu then
    if hasStream then [.memcpyAsync .deviceToHost]
    else [.memcpySync .deviceToHost, .streamSynchronize false]
  else
    (if hasStream ∧ srcMem = .cudaPinned then [CopyAction.streamSynchronize true]
     else []) ++ [CopyAction.hostMemcpy]

/-- Whether a copy action is a data movement (as opposed to a synchronize). -/
def CopyAction.isCopy : CopyAction → Bool
  | .memcpyAsync _ => true
  | .memcpySync _ => true
  | .hostMemcpy => true
  | .streamSynchronize _ => false

/-- The `cudaMemcpyKind` of a device memcpy action, if it is one. -/
def CopyAction.kind? : CopyAction → Option MemcpyKind
  | .memcpyAsync k => some k
  | .memcpySync k => some k
  | _ => none

/-! ## `GetCapability` (lines 492-493)

The registered `GetCapability` callback has an empty body: it never writes
through its `cnt` / `indexed_sub_graph` output parameters.  We model the
output parameters as an explicit record threaded through the call. -/

/-- The two output parameters of the `GetCapability` callback: the subgraph
count `*cnt` and the indexed-subgraph array, each `none` while unwritten. -/
structure CapabilityOutputs where
  subgraphCount : Option Nat
  subgraphArray : Option (List (List Nat))
deriving DecidableEq, Repr

/-- Shallow embedding of the `GetCapability` lambda: its body is empty, so the
output-parameter state is returned untouched.  `graph` abstracts the
`OrtGraphViewer*` argument. -/
def GetCapability (_graph : Nat) (outs : CapabilityOutputs) : CapabilityOutputs :=
  outs

/-! ## ONNX tensor element-type codes (`ONNXTensorElementDataType`) -/

/-- `ONNX_TENSOR_ELEMENT_DATA_TYPE_FLOAT` -/
def ONNX_FLOAT : Nat := 1
/-- `ONNX_TENSOR_ELEMENT_DATA_TYPE_UINT8` -/
def ONNX_UINT8 : Nat := 2
/-- `ONNX_TENSOR_ELEMENT_DATA_TYPE_INT8` -/
def ONNX_INT8 : Nat := 3
/-- `ONNX_TENSOR_ELEMENT_DATA_TYPE_INT32` -/
def ONNX_INT32 : Nat := 6
/-- `ONNX_TENSOR_ELEMENT_DATA_TYPE_INT64` -/
def ONNX_INT64 : Nat := 7
/-- `ONNX_TENSOR_ELEMENT_DATA_TYPE_BOOL` -/
def ONNX_BOOL : Nat := 9
/-- `ONNX_TENSOR_ELEMENT_DATA_TYPE_FLOAT16` -/
def ONNX_FLOAT16 : Nat := 10
/-- `ONNX_TENSOR_ELEMENT_DATA_TYPE_DOUBLE` -/
def ONNX_DOUBLE : Nat := 11

/-- The element types for which a `CASE_GET_INPUT_TENSOR` /
`CASE_GET_OUTPUT_TENSOR` / `CASE_COPY_TENSOR` case is compiled in:
float, float16, bool, int8, uint8, int32 always, and int64 only under
`#if NV_TENSORRT_MAJOR >= 10`.  The int64-to-int32 and double-to-float cast
cases of the source are commented out, so no other type has a case. -/
def trtSupportedElemType (trtMajor : Nat) (ty : Nat) : Bool :=
  ty = ONNX_FLOAT ∨ ty = ONNX_FLOAT16 ∨ ty = ONNX_BOOL ∨ ty = ONNX_INT8 ∨
    ty = ONNX_UINT8 ∨ ty = ONNX_INT32 ∨ (10 ≤ trtMajor ∧ ty = ONNX_INT64)

/-! ## Input binding (`BindContextInput`, lines 245-363) -/

/-- How `BindContextInput` bound the input, when it succeeded. -/
inductive BindInputAction where
  | bindShapeTensorI32
  | bindShapeTensorI64
  | bindDirect
  | bindScratchByte
deriving DecidableEq, Repr

/-- The per-input data `BindContextInput` consults.  `shapeInference` is
`trt_engine->isShapeInferenceIO(input_name)`; `elemCnt` is
`tensor_info.GetElementCount()` (`-1` when a dimension is negative);
`dataNonNull` is whether `GetTensorData` returned a non-null pointer;
`setTensorAddressOk` / `setInputShapeOk` are the results of the
corresponding `IExecutionContext` calls. -/
structure BindInputArgs where
  inputName : String
  shapeInference : Bool
  tensorType : Nat
  elemCnt : Int
  dataNonNull : Bool
  setTensorAddressOk : Bool
  setInputShapeOk : Bool
deriving DecidableEq, Repr

/-- Error message of `BindContextInput` when `setTensorAddress` fails for a
shape input. -/
def shapeAddressFailMsg (name : String) : String :=
  "TensorRT EP failed to call nvinfer1::IExecutionContext::setTensorAddress() for shape input '"
    ++ name ++ "'"

/-- Error message of `BindContextInput` for a shape tensor whose type is
neither INT32 nor INT64. -/
def shapeTypeFailMsg (name : String) : String :=
  "The data type of shape tensor should be INT32 or INT64. Please check the data type of "
    ++ name

/-- Error message of `BindContextInput` when `setInputShape` fails. -/
def setInputShapeFailMsg (name : String) : String :=
  "TensorRT EP failed to call nvinfer1::IExecutionContext::setInputShape() for input '"
    ++ name ++ "'"

/-- Error message of `BindContextInput` for an unsupported input element
type; it names the numeric ONNX type code. -/
def inputTypeNotSupportedMsg (ty : Nat) : String :=
  "TensorRT EP input onnx tensor data type: " ++ toString ty ++ " not supported."

/-- Shallow embedding of `BindContextInput` (lines 245-363), for a TensorRT
builder of major version `trtMajor` (the `NV_TENSORRT_MAJOR` macro).  On the
execution-tensor branch the type switch has direct cases for float, float16,
bool, int8, uint8, int32 and (only when `trtMajor ≥ 10`) int64; the
`CASE_GET_CAST_INPUT_TENSOR` lines for int64 (builder-major < 10) and for
double are commented out in the source, so those types reach the `default`
case and fail. -/
def BindContextInput (trtMajor : Nat) (a : BindInputArgs) :
    Status × Option BindInputAction :=
  if a.shapeInference then
    if a.tensorType = ONNX_INT32 then
      if a.setTensorAddressOk then (.ok, some .bindShapeTensorI32)
      else (.fail (shapeAddressFailMsg a.inputName), none)
    else if a.tensorType = ONNX_INT64 then
      if a.setTensorAddressOk then (.ok, some .bindShapeTensorI64)
      else (.fail (shapeAddressFailMsg a.inputName), none)
    else (.fail (shapeTypeFailMsg a.inputName), none)
  else
    if ¬ a.setInputShapeOk then (.fail (setInputShapeFailMsg a.inputName), none)
    else if trtSupportedElemType trtMajor a.tensorType then
      if a.dataNonNull ∧ 0 < a.elemCnt then (.ok, some .bindDirect)
      else (.ok, some .bindScratchByte)
    else (.fail (inputTypeNotSupportedMsg a.tensorType), none)

/-! ## DDS output finalization (`BindKernelOutput`, lines 435-489) -/

/-- `OrtTensorTypeAndShapeInfo::GetElementCount` as documented in the source
comment: product of all dimensions, `1` for zero dimensions, `-1` when any
dimension is negative. -/
def GetElementCount (shape : List Int) : Int :=
  if shape.any (fun d => d < 0) then -1 else shape.foldl (· * ·) 1

/-- Error message of `BindKernelOutput` / `BindContextOutput` for an
unsupported output element type; it names the numeric ONNX type code. -/
def outputTypeNotSupportedMsg (ty : Nat) : String :=
  "TensorRT EP output tensor data type: " ++ toString ty ++ " not supported."

/-- Result of `BindKernelOutput`: the status, the shape passed to
`ctx.GetOutput` (the shape recorded by the DDS output allocator), and whether
a `cudaMemcpyAsync` from the allocator's buffer was performed. -/
structure KernelOutputResult where
  status : Status
  requestedShape : List Int
  deviceCopy : Bool
deriving DecidableEq, Repr

/-- Shallow embedding of `BindKernelOutput` (lines 435-489): `allocShape` is
the shape recorded by the output's DDS allocator (`getOutputShape`),
`outPtrNonNull` is whether `GetTensorMutableData` on the kernel-context
output returned non-null.  `ctx.GetOutput` is always called with the
allocator's shape before the type switch; `CASE_COPY_TENSOR` copies only
when the pointer is non-null and the element count is positive; the int64
(builder-major < 10) and double cast cases are commented out, so those
types reach the `default` case and fail. -/
def BindKernelOutput (trtMajor : Nat) (allocShape : List Int) (outputType : Nat)
    (outPtrNonNull : Bool) : KernelOutputResult :=
  let elemCnt := GetElementCount allocShape
  if trtSupportedElemType trtMajor outputType then
    { status := .ok
      requestedShape := allocShape
      deviceCopy := outPtrNonNull && decide (0 < elemCnt) }
  else
    { status := .fail (outputTypeNotSupportedMsg outputType)
      requestedShape := allocShape
      deviceCopy := false }

/-! ## Refit (`TensorrtExecutionProvider::RefitEngine`, lines 605-661) -/

/-- Modelled from the spec: `IsAbsolutePath` is declared in
`tensorrt_execution_provider_utils.h`, which is not among the provided
sources.  Spec 4.4 precondition 1: "The path must be relative"; the
SecurityError kind reads "ONNX model path is absolute".  A POSIX path is
absolute exactly when it begins with the separator. -/
def IsAbsolutePath (p : String) : Bool :=
  match p.data with
  | [] => false
  | c :: _ => c = '/'

/-- Split a character sequence at every `/` separator. -/
def splitSlash : List Char → List (List Char)
  | [] => [[]]
  | c :: rest =>
      if c = '/' then [] :: splitSlash rest
      else
        match splitSlash rest with
        | [] => [[c]]
        | s :: ss => (c :: s) :: ss

/-- Modelled from the spec: `IsRelativePathToParentPath` is declared in
`tensorrt_execution_provider_utils.h`, which is not among the provided
sources.  Spec 4.4 precondition 2: "The resolved path must not climb above
its parent (no `..` components)" — the path has some `..` component. -/
def IsRelativePathToParentPath (p : String) : Bool :=
  (splitSlash p.data).any (fun comp => comp = ['.', '.'])

/-- `std::filesystem::path::append` as used in
`onnx_model_path.append(onnx_model_filename)`: appending an absolute leaf
replaces the path, otherwise a separator is inserted when needed. -/
def fsAppend (base leaf : String) : String :=
  if IsAbsolutePath leaf then leaf
  else if base = "" then leaf
  else if base.data.getLast? = some '/' then base ++ leaf
  else base ++ "/" ++ leaf

/-- The TensorRT API calls `RefitEngine` makes after its checks pass. -/
inductive RefitEvent where
  | createRefitter
  | refitFromFile
  | refitCudaEngine
  | serializeRefittedEngine
deriving DecidableEq, Repr

/-- Result of `RefitEngine`: its status and the refitting calls performed. -/
structure RefitResult where
  status : Status
  events : List RefitEvent
deriving DecidableEq, Repr

/-- Error message of `RefitEngine` on builders before TRT 10. -/
def refitVersionFailMsg : String :=
  "TensorRT EP's IParserRefitter can only be used on TRT 10.0 onwards."

/-- Error message of `RefitEngine` for an absolute ONNX model path. -/
def refitAbsolutePathFailMsg (p : String) : String :=
  "For security purpose, the ONNX model path should be set with a relative path, but it is an absolute path: "
    ++ p

/-- Error message of `RefitEngine` for an ONNX model path with a `..`
component. -/
def refitParentPathFailMsg : String :=
  "The ONNX model path has '..'. For security purpose, it's not allowed to point outside the directory."

/-- Shallow embedding of `TensorrtExecutionProvider::RefitEngine`
(lines 605-661).  `trtMajor` is the `NV_TENSORRT_MAJOR` macro;
`modelFileExists`, `refitFromFileOk` and `refitCudaEngineOk` are the results
of `std::filesystem::exists`, `IParserRefitter::refitFromFile` and
`IRefitter::refitCudaEngine`.  The ONNX model path is the folder path with
the file name appended. -/
def RefitEngine (trtMajor : Nat) (onnxModelFilename onnxModelFolderPath : String)
    (pathCheck modelFileExists refitFromFileOk refitCudaEngineOk
      serializeRefittedEngine : Bool) : RefitResult :=
  if trtMajor < 10 then
    { status := .fail refitVersionFailMsg, events := [] }
  else
    let p := fsAppend onnxModelFolderPath onnxModelFilename
    if pathCheck ∧ IsAbsolutePath p then
      { status := .fail (refitAbsolutePathFailMsg p), events := [] }
    else if pathCheck ∧ IsRelativePathToParentPath p then
      { status := .fail refitParentPathFailMsg, events := [] }
    else if ¬ modelFileExists then
      { status := .fail ("The ONNX model " ++ p ++ " does not exist."), events := [] }
    else if ¬ refitFromFileOk then
      { status := .fail ("TensorRT EP's IParserRefitter could not refit deserialized weight-stripped engine with weights contained in: " ++ p)
        events := [.createRefitter, .refitFromFile] }
    else if ¬ refitCudaEngineOk then
      { status := .fail ("TensorRT EP's IRefitter could not refit deserialized weight-stripped engine with weights contained in: " ++ p)
        events := [.createRefitter, .refitFromFile, .refitCudaEngine] }
    else
      { status := .ok
        events := [.createRefitter, .refitFromFile, .refitCudaEngine] ++
          if serializeRefittedEngine then [.serializeRefittedEngine] else [] }

/-! ## FP16 layer-norm overflow guard
  (`CreateNodeComputeInfoFromGraph`, lines 683-696)

When `fp16_enable_ && layer_norm_fp32_fallback_`, the compile step walks
`idx` from `1` while `idx < getNbLayers() - 1` and, when layer `idx` is an
element-wise POW layer immediately followed by a REDUCE layer, pins the
precision and the output type of both layers to FP32. -/

/-- `nvinfer1::LayerType`, restricted to the values the guard inspects. -/
inductive LayerType where
  | elementWise
  | reduce
  | otherLayer
deriving DecidableEq, Repr

/-- `nvinfer1::ElementWiseOperation`, restricted to the value the guard
inspects (`getOperation()` is only called on element-wise layers). -/
inductive EltwiseOp where
  | pow
  | otherOp
deriving DecidableEq, Repr

/-- `nvinfer1::DataType`, restricted to the value the guard writes. -/
inductive TrtDataType where
  | float
  | half
  | otherType
deriving DecidableEq, Repr

/-- One `nvinfer1::ILayer` of the parsed network, keeping the fields the
guard reads (`getType`, `getOperation`) and writes (`setPrecision`,
`setOutputType(0, ...)`); `none` models an unset precision / output type. -/
structure TrtLayer where
  ltype : LayerType
  op : EltwiseOp
  precision : Option TrtDataType
  outType : Option TrtDataType
deriving DecidableEq, Repr

/-- A placeholder layer for out-of-range reads; the guard's loop bounds keep
every read in range. -/
def dfltLayer : TrtLayer :=
  { ltype := .otherLayer, op := .otherOp, precision := none, outType := none }

/-- `setPrecision(kFLOAT)` followed by `setOutputType(0, kFLOAT)`. -/
def pinLayerFp32 (l : TrtLayer) : TrtLayer :=
  { l with precision := some .float, outType := some .float }

/-- The guard's match condition at index `idx`: layer `idx` is in range with
a successor, is an element-wise layer with operation POW, and layer
`idx + 1` is a REDUCE layer. -/
def powReduceMatch (layers : List TrtLayer) (idx : Nat) : Bool :=
  decide (idx + 1 < layers.length) &&
    (layers.getD idx dfltLayer).ltype = LayerType.elementWise &&
    (layers.getD (idx + 1) dfltLayer).ltype = LayerType.reduce &&
    (layers.getD idx dfltLayer).op = EltwiseOp.pow

/-- One iteration of the guard's loop body at index `idx`. -/
def layerNormStep (layers : List TrtLayer) (idx : Nat) : List TrtLayer :=
  if powReduceMatch layers idx then
    (layers.set idx (pinLayerFp32 (layers.getD idx dfltLayer))).set (idx + 1)
      (pinLayerFp32 (layers.getD (idx + 1) dfltLayer))
  else layers

/-- Shallow embedding of the FP16 layer-norm overflow guard (lines 683-696):
`for (auto idx = 1; idx < trt_network->getNbLayers() - 1; ++idx)`, i.e. the
loop runs over `idx ∈ [1, nbLayers - 1)` — the pair `(0, 1)` is never
examined. -/
def layerNormFp32Fallback (fp16Enable layerNormFallback : Bool)
    (layers : List TrtLayer) : List TrtLayer :=
  if fp16Enable && layerNormFallback then
    (List.range' 1 (layers.length - 2)).foldl layerNormStep layers
  else layers

/-- Whether the guard's loop touches position `k` of the original layer
list, given the loop indices `idxs`: some visited index `i` matches and `k`
is `i` or `i + 1`. -/
def touchedByGuard (layers : List TrtLayer) (idxs : List Nat) (k : Nat) : Bool :=
  idxs.any (fun i => powReduceMatch layers i && (decide (k = i) || decide (k = i + 1)))

/-- An element-wise POW layer with unset precision and output type. -/
def powLayer : TrtLayer :=
  { ltype := .elementWise, op := .pow, precision := none, outType := none }

/-- A REDUCE layer with unset precision and output type. -/
def reduceLayer : TrtLayer :=
  { ltype := .reduce, op := .otherOp, precision := none, outType := none }

/-- Some unrelated layer with unset precision and output type. -/
def plainLayer : TrtLayer :=
  { ltype := .otherLayer, op := .otherOp, precision := none, outType := none }

/-! ## Association-list helpers

`std::unordered_map` is modelled as an association list with insertion-order
iteration; `alookup` is `find`, `alistInsert` is `operator[] = v` (update in
place, or append a fresh entry). -/

/-- Lookup in an association list (map `find`). -/
def alookup {κ β : Type} [DecidableEq κ] : List (κ × β) → κ → Option β
  | [], _ => none
  | (k', v) :: rest, k => if k' = k then some v else alookup rest k

/-- Insert-or-assign in an association list (map `operator[] = v`): replaces
the value of an existing key in place, otherwise appends a new entry. -/
def alistInsert {κ β : Type} [DecidableEq κ] (m : List (κ × β)) (k : κ) (v : β) :
    List (κ × β) :=
  match m with
  | [] => [(k, v)]
  | (k', v') :: rest =>
      if k' = k then (k', v) :: rest else (k', v') :: alistInsert rest k v

/-! ## Optimization-profile setup
  (`CreateNodeComputeInfoFromGraph`, lines 698-830, and
  `ApplyProfileShapesFromProviderOptions`, lines 70-172) -/

/-- One input tensor of the parsed TRT network: its name, whether it is a
shape tensor (`isShapeTensor()`), and its dimensions (`-1` = dynamic). -/
structure NetworkInput where
  name : String
  shapeTensor : Bool
  dims : List Int
deriving DecidableEq, Repr

/-- A user-supplied profile shape map (`profile_min_shapes_` etc.):
input name → one shape vector per profile. -/
abbrev ProfileShapeMap := List (String × List (List Int))

/-- The `ShapeRangesMap` of the source:
input name → (dimension index → per-profile lists of pushed values). -/
abbrev ShapeRangesMap := List (String × List (Nat × List (List Int)))

/-- `profile_min_shapes[input_name][i][j]` (and likewise for max/opt). -/
def profileShapeValue (m : ProfileShapeMap) (name : String) (i j : Nat) : Int :=
  (((alookup m name).getD []).getD i []).getD j 0

/-- `ranges[name][j] = pv`, creating the outer and inner entries as needed
(`unordered_map::operator[]` semantics). -/
def setDim (ranges : ShapeRangesMap) (name : String) (j : Nat)
    (pv : List (List Int)) : ShapeRangesMap :=
  alistInsert ranges name (alistInsert ((alookup ranges name).getD []) j pv)

/-- `ranges[name][j]`, when both entries exist. -/
def getDim (ranges : ShapeRangesMap) (name : String) (j : Nat) :
    Option (List (List Int)) :=
  (alookup ranges name).bind (fun inner => alookup inner j)

/-- Record one `(min, max, opt)` triple into the explicit shape-range store
under `(name, j)` for profile `i` (lines 118-124 / 152-158): if dimension
`j` has no entry yet it is initialised to `numProfiles` empty vectors, then
the three values are pushed onto the vector of profile `i`. -/
def recordTriple (ranges : ShapeRangesMap) (name : String) (numProfiles : Nat)
    (i j : Nat) (minv maxv optv : Int) : ShapeRangesMap :=
  let inner := (alookup ranges name).getD []
  let pv := (alookup inner j).getD (List.replicate numProfiles [])
  let pv' := pv.set i ((pv.getD i []) ++ [minv, maxv, optv])
  alistInsert ranges name (alistInsert inner j pv')

/-- Shallow embedding of `ApplyProfileShapesFromProviderOptions`
(lines 70-172): returns `false` (store unchanged) when there are no
profiles or the input name has no entry in the min-shape map; otherwise
records, for each profile `i`, the `(min, max, opt)` values — for a shape
tensor over every shape position, for an execution tensor over exactly the
dimensions that are `-1` in the network definition — and returns `true`.
(The `setShapeValues` / `setDimensions` calls on the TRT profile objects
have no observable state here.) -/
def ApplyProfileShapesFromProviderOptions (numProfiles : Nat)
    (minS maxS optS : ProfileShapeMap) (inp : NetworkInput)
    (ranges : ShapeRangesMap) : Bool × ShapeRangesMap :=
  if numProfiles = 0 then (false, ranges)
  else
    match alookup minS inp.name with
    | none => (false, ranges)
    | some minProfiles =>
      let r0 := if (alookup ranges inp.name).isSome then ranges
                else ranges ++ [(inp.name, [])]
      let nbDims := inp.dims.length
      let r := (List.range numProfiles).foldl (fun acc i =>
        if inp.shapeTensor then
          let shapeSize := if nbDims = 0 then 1 else (minProfiles.getD i []).length
          (List.range shapeSize).foldl (fun acc2 j =>
            recordTriple acc2 inp.name numProfiles i j
              (profileShapeValue minS inp.name i j)
              (profileShapeValue maxS inp.name i j)
              (profileShapeValue optS inp.name i j)) acc
        else
          (List.range nbDims).foldl (fun acc2 j =>
            if inp.dims.getD j 0 = -1 then
              recordTriple acc2 inp.name numProfiles i j
                (profileShapeValue minS inp.name i j)
                (profileShapeValue maxS inp.name i j)
                (profileShapeValue optS inp.name i j)
            else acc2) acc) r0
      (true, r)

/-- Modelled from the spec: `GetNumProfiles` is declared in
`tensorrt_execution_provider_utils.h`, which is not among the provided
sources.  Spec 4.1: "create one TRT optimization profile per profile
index" of the user-supplied min/max/opt shape vectors — the number of
profiles is the number of per-profile shape vectors the map carries. -/
def GetNumProfiles (m : ProfileShapeMap) : Nat :=
  match m with
  | [] => 0
  | (_, v) :: _ => v.length

/-- The sentinel profile vector `{INT_MAX, INT_MIN, INT_MIN}` seeded for a
dynamic dimension without an explicit profile (lines 780 / 789). -/
def sentinelProfileVector : List (List Int) := [[INT_MAX, INT_MIN, INT_MIN]]

/-- State threaded through the per-input loop of lines 763-798. -/
structure ProfileSetupState where
  explicitRanges : ShapeRangesMap
  implicitRanges : ShapeRangesMap
  hasDynamicShape : Bool
deriving Repr

/-- One iteration of the inner dimension loop (lines 786-794): when
`dims.d[j] == -1`, assign the sentinel profile vector under `(name, j)` and
set `has_dynamic_shape`. -/
def seedDimStep (name : String) (dims : List Int)
    (acc : ShapeRangesMap × Bool) (j : Nat) : ShapeRangesMap × Bool :=
  if dims.getD j 0 = -1 then (setDim acc.1 name j sentinelProfileVector, true)
  else acc

/-- The loop of lines 786-794 over the dimensions of an execution tensor. -/
def seedDims (name : String) (dims : List Int)
    (acc : ShapeRangesMap × Bool) : ShapeRangesMap × Bool :=
  (List.range dims.length).foldl (seedDimStep name dims) acc

/-- Line 771-773: the explicit profiles are applied only when the
configuration carries them (`has_explicit_profile`). -/
def applyExplicit (hasExplicitProfile : Bool) (numProfiles : Nat)
    (minS maxS optS : ProfileShapeMap) (inp : NetworkInput)
    (r : ShapeRangesMap) : Bool × ShapeRangesMap :=
  if hasExplicitProfile then
    ApplyProfileShapesFromProviderOptions numProfiles minS maxS optS inp r
  else (false, r)

/-- One iteration of the input loop (lines 764-797): try to apply the
user's explicit profiles to this input; when none applies, seed the
implicit shape-range store — for a shape tensor a single entry at
dimension index `0`, for an execution tensor one entry per `-1`
dimension — and raise `has_dynamic_shape`. -/
def seedOneInput (hasExplicitProfile : Bool) (numProfiles : Nat)
    (minS maxS optS : ProfileShapeMap) (st : ProfileSetupState)
    (inp : NetworkInput) : ProfileSetupState :=
  if (applyExplicit hasExplicitProfile numProfiles minS maxS optS inp
      st.explicitRanges).1 then
    { st with explicitRanges :=
        (applyExplicit hasExplicitProfile numProfiles minS maxS optS inp
          st.explicitRanges).2 }
  else if inp.shapeTensor then
    { explicitRanges :=
        (applyExplicit hasExplicitProfile numProfiles minS maxS optS inp
          st.explicitRanges).2
      implicitRanges := setDim st.implicitRanges inp.name 0 sentinelProfileVector
      hasDynamicShape := true }
  else
    { explicitRanges :=
        (applyExplicit hasExplicitProfile numProfiles minS maxS optS inp
          st.explicitRanges).2
      implicitRanges :=
        (seedDims inp.name inp.dims (st.implicitRanges, st.hasDynamicShape)).1
      hasDynamicShape :=
        (seedDims inp.name inp.dims (st.implicitRanges, st.hasDynamicShape)).2 }

/-- `msg << it->first` joined with `","` (lines 808-818). -/
def joinComma (l : List String) : String :=
  match l with
  | [] => ""
  | x :: xs => xs.foldl (fun acc s => acc ++ "," ++ s) x

/-- The failure message of lines 805-819, enumerating the input names of
the implicit shape-range store (the inputs still lacking profiles). -/
def missingProfilesMsg (names : List String) : String :=
  "User needs to provide all the dynamic shape inputs with associated profiles if they want to explicitly set profiles through provider options.\n"
    ++ "Please note that main graph could be partitioned into TRT/CUDA/CPU subgraphs, in this case, user also needs to provide shape profiles for the TRT subgraph's input if it's dynamic shape input.\n"
    ++ "Following input(s) has no associated shape profiles provided: "
    ++ joinComma names

/-- Result of the profile-setup stage of `CreateNodeComputeInfoFromGraph`:
its status, the two shape-range stores, how many optimization profiles were
added to the builder configuration (`addOptimizationProfile`), and whether a
TRT engine was built at compile time.  `engineBuiltAtCompileTime` is `false`
on every path because the engine-building block of the source (from line 957
on) is commented out: the active function returns after the precision/DLA
flag handling without ever creating an `ICudaEngine`. -/
structure CompileProfileOutcome where
  status : Status
  explicitRanges : ShapeRangesMap
  implicitRanges : ShapeRangesMap
  profilesAddedToConfig : Nat
  engineBuiltAtCompileTime : Bool
deriving Repr

/-- Line 755: explicit profiles exist when all three user shape maps are
non-empty. -/
def hasExplicitProfileFlag (minS maxS optS : ProfileShapeMap) : Bool :=
  ¬ minS.isEmpty ∧ ¬ maxS.isEmpty ∧ ¬ optS.isEmpty

/-- The input loop of lines 763-798, starting from empty shape-range
stores and `has_dynamic_shape = false`. -/
def profileSetupLoop (minS maxS optS : ProfileShapeMap)
    (inputs : List NetworkInput) : ProfileSetupState :=
  inputs.foldl
    (seedOneInput (hasExplicitProfileFlag minS maxS optS)
      (if hasExplicitProfileFlag minS maxS optS then GetNumProfiles minS else 0)
      minS maxS optS)
    ⟨[], [], false⟩

/-- Shallow embedding of the optimization-profile setup of
`CreateNodeComputeInfoFromGraph` (lines 755-830): explicit profiles exist
when all three user shape maps are non-empty; every input is visited,
seeding the implicit store for dynamic shapes without explicit profiles;
then, if explicit profiles exist but some dynamic input lacks one, the
function fails with a message enumerating the inputs still lacking
profiles and adds no profile to the builder configuration; otherwise the
explicit profiles (if any) are all added. -/
def setupOptimizationProfiles (minS maxS optS : ProfileShapeMap)
    (inputs : List NetworkInput) : CompileProfileOutcome :=
  if hasExplicitProfileFlag minS maxS optS then
    if (profileSetupLoop minS maxS optS inputs).hasDynamicShape then
      { status := .fail (missingProfilesMsg
          ((profileSetupLoop minS maxS optS inputs).implicitRanges.map Prod.fst))
        explicitRanges := (profileSetupLoop minS maxS optS inputs).explicitRanges
        implicitRanges := (profileSetupLoop minS maxS optS inputs).implicitRanges
        profilesAddedToConfig := 0
        engineBuiltAtCompileTime := false }
    else
      { status := .ok
        explicitRanges := (profileSetupLoop minS maxS optS inputs).explicitRanges
        implicitRanges := (profileSetupLoop minS maxS optS inputs).implicitRanges
        profilesAddedToConfig := GetNumProfiles minS
        engineBuiltAtCompileTime := false }
  else
    { status := .ok
      explicitRanges := (profileSetupLoop minS maxS optS inputs).explicitRanges
      implicitRanges := (profileSetupLoop minS maxS optS inputs).implicitRanges
      profilesAddedToConfig := 0
      engineBuiltAtCompileTime := false }

/-- A dynamic-shape input with no explicit profile associated: its name has
no entry in the user min-shape map, and it is a shape tensor (always
seeded by the implicit path) or an execution tensor with a `-1`
dimension. -/
def dynamicWithoutProfile (minS : ProfileShapeMap) (inp : NetworkInput) : Prop :=
  alookup minS inp.name = none ∧ (inp.shapeTensor = true ∨ (-1 : Int) ∈ inp.dims)

/-! ## The compute function of a precompiled-engine node
  (`CreateNodeComputeInfoFromPrecompiledEngine::ComputeFunc`,
  lines 1959-2160)

This is the only active compute function of the provider (the compute
function of the from-graph path, lines 1301-1845, is entirely commented
out).  We model it as the sequence of synchronisation / binding / launch
operations its body performs.  Two blocks of its body are present only as
comments in the source and therefore contribute no operation:
the mutex acquisition (line 1966, `std::lock_guard` commented out with a
TODO) and the CUDA-graph capture calls (lines 2076-2077 and 2149-2156,
bodies of the two capture `if`s commented out). -/

/-- One operation performed by the compute function. -/
inductive ComputeEvent where
  | lockProviderMutex
  | bindInput (i : Nat)
  | bindOutput (i : Nat)
  | setDeviceMemory
  | graphSetStream
  | graphCaptureBegin
  | graphCaptureEnd
  | graphReplay
  | incrementRunCount
  | enqueueV3
  | streamSynchronize
  | bindKernelOutput (i : Nat)
  | castInt32ToInt64 (i : Nat)
deriving DecidableEq, Repr

/-- The data the compute function's control flow depends on.  `outputs`
lists, per output binding, whether the output is in the DDS allocator map
and its ONNX element type.  `graphCaptureAllowed` / `graphCaptured` are the
results of `IsGraphCaptureAllowed()` / `IsGraphCaptured(0)`;
`enqueueOk` is the result of `enqueueV3`. -/
structure ComputeFuncArgs where
  numInputs : Nat
  outputs : List (Bool × Nat)
  contextMemSharing : Bool
  cudaGraphEnable : Bool
  graphCaptureAllowed : Bool
  graphCaptured : Bool
  syncStreamAfterEnqueue : Bool
  enqueueOk : Bool
  trtMajor : Nat
deriving DecidableEq, Repr

/-- The finalization events for one output (lines 2106-2142): DDS outputs
go through `BindKernelOutput`; a pre-bound int64 output is cast from its
int32 transport buffer when the builder major version is below 10 (the
double branch's body, lines 2136-2139, is commented out). -/
def outFinalizeEvents (trtMajor : Nat) (p : Nat × (Bool × Nat)) :
    List ComputeEvent :=
  if p.2.1 then [ComputeEvent.bindKernelOutput p.1]
  else if trtMajor < 10 ∧ p.2.2 = ONNX_INT64 then
    [ComputeEvent.castInt32ToInt64 p.1]
  else []

/-- Shallow embedding of the active `ComputeFunc` (lines 1959-2160) as its
operation trace, on the path where the individual bindings succeed: bind
every input, bind every output, optionally set shared context memory, reach
the (empty-bodied) capture-begin `if`, launch `enqueueV3` (returning early
on failure), optionally synchronize the stream, finalize each output, and
reach the (empty-bodied) capture-end `if`. -/
def ComputeFunc (a : ComputeFuncArgs) : List ComputeEvent :=
  let inBinds := (List.range a.numInputs).map ComputeEvent.bindInput
  let outBinds := (List.range a.outputs.length).map ComputeEvent.bindOutput
  let memShare := if a.contextMemSharing then [ComputeEvent.setDeviceMemory] else []
  let pre := inBinds ++ outBinds ++ memShare ++ [ComputeEvent.enqueueV3]
  if ¬ a.enqueueOk then pre
  else
    let sync := if a.syncStreamAfterEnqueue then [ComputeEvent.streamSynchronize] else []
    pre ++ sync ++ (a.outputs.enum.map (outFinalizeEvents a.trtMajor)).flatten

/-- A concrete argument record for which CUDA-graph capture is eligible:
capture enabled, the warm-up threshold reached (`IsGraphCaptureAllowed`
true), and no graph captured yet. -/
def captureEligibleArgs : ComputeFuncArgs :=
  { numInputs := 1, outputs := [(true, 1)], contextMemSharing := false,
    cudaGraphEnable := true, graphCaptureAllowed := true, graphCaptured := false,
    syncStreamAfterEnqueue := false, enqueueOk := true, trtMajor := 10 }

/-! # Theorems -/

/-! ## Generic fold invariants -/

theorem foldl_preserves {α β : Type} {f : α → β → α} {P : α → Prop}
    (hf : ∀ a b, P a → P (f a b)) :
    ∀ (l : List β) (a : α), P a → P (l.foldl f a) := by
  intro l
  induction l with
  | nil => intro a ha; exact ha
  | cons x xs ih => intro a ha; exact ih (f a x) (hf a x ha)

theorem foldl_establishes {α β : Type} {f : α → β → α} {P : α → Prop}
    (hf : ∀ a b, P a → P (f a b)) (b : β) (hb : ∀ a, P (f a b)) :
    ∀ (l : List β) (a : α), b ∈ l → P (l.foldl f a) := by
  intro l
  induction l with
  | nil => intro a hmem; cases hmem
  | cons x xs ih =>
      intro a hmem
      rcases List.mem_cons.mp hmem with h | h
      · subst h
        exact foldl_preserves hf xs (f a b) (hb a)
      · exact ih (f a x) h

/-! ## Association-list lemmas -/

theorem alookup_alistInsert_self {κ β : Type} [DecidableEq κ]
    (m : List (κ × β)) (k : κ) (v : β) :
    alookup (alistInsert m k v) k = some v := by
  induction m with
  | nil => simp [alistInsert, alookup]
  | cons p rest ih =>
      obtain ⟨k', v'⟩ := p
      by_cases h : k' = k
      · simp [alistInsert, alookup, h]
      · simp [alistInsert, alookup, h, ih]

theorem alookup_alistInsert_ne {κ β : Type} [DecidableEq κ]
    (m : List (κ × β)) (k k'' : κ) (v : β) (hne : k'' ≠ k) :
    alookup (alistInsert m k v) k'' = alookup m k'' := by
  have hkk : ¬ k = k'' := fun h => hne h.symm
  induction m with
  | nil => simp [alistInsert, alookup, hkk]
  | cons p rest ih =>
      obtain ⟨k', v'⟩ := p
      by_cases h : k' = k
      · subst h
        simp [alistInsert, alookup, hkk]
      · simp only [alistInsert, if_neg h, alookup]
        by_cases h2 : k' = k''
        · simp [h2]
        · simp [h2, ih]

theorem alistInsert_keys_self {κ β : Type} [DecidableEq κ]
    (m : List (κ × β)) (k : κ) (v : β) :
    k ∈ (alistInsert m k v).map Prod.fst := by
  induction m with
  | nil => simp [alistInsert]
  | cons p rest ih =>
      obtain ⟨k', v'⟩ := p
      by_cases h : k' = k
      · simp [alistInsert, h]
      · simp only [alistInsert, if_neg h, List.map_cons, List.mem_cons]
        right
        exact ih

theorem alistInsert_keys_mono {κ β : Type} [DecidableEq κ]
    (m : List (κ × β)) (k k'' : κ) (v : β)
    (h : k'' ∈ m.map Prod.fst) :
    k'' ∈ (alistInsert m k v).map Prod.fst := by
  induction m with
  | nil => cases h
  | cons p rest ih =>
      obtain ⟨k', v'⟩ := p
      by_cases hk : k' = k
      · subst hk
        simpa [alistInsert] using h
      · simp only [alistInsert, if_neg hk, List.map_cons, List.mem_cons]
        simp only [List.map_cons, List.mem_cons] at h
        rcases h with h | h
        · exact Or.inl h
        · exact Or.inr (ih h)

theorem getDim_setDim_self (m : ShapeRangesMap) (name : String) (j : Nat)
    (pv : List (List Int)) :
    getDim (setDim m name j pv) name j = some pv := by
  unfold getDim setDim
  rw [alookup_alistInsert_self]
  simp [alookup_alistInsert_self]

theorem getDim_setDim_ne (m : ShapeRangesMap) (name : String) (j : Nat)
    (pv : List (List Int)) (name' : String) (j' : Nat)
    (h : name' ≠ name ∨ j' ≠ j) :
    getDim (setDim m name j pv) name' j' = getDim m name' j' := by
  unfold getDim setDim
  rcases h with h | h
  · rw [alookup_alistInsert_ne _ _ _ _ h]
  · by_cases hn : name' = name
    · subst hn
      rw [alookup_alistInsert_self]
      have hq := alookup_alistInsert_ne ((alookup m name').getD []) j j' pv h
      cases hm : alookup m name' with
      | none =>
          simp [hm, alookup, alistInsert]
          exact fun hh => h hh.symm
      | some inner => simp [hm] at hq ⊢; simp [hq]
    · rw [alookup_alistInsert_ne _ _ _ _ hn]

/-! ## C9 -/

/-- C9: the `GetCapability` callback leaves its output parameters (the
subgraph count and the indexed-subgraph array) unwritten for every graph —
the provider never claims a subgraph through this callback. -/
theorem C9_getCapability_writes_nothing (graph : Nat) (outs : CapabilityOutputs) :
    GetCapability graph outs = outs ∧
      (GetCapability graph outs).subgraphCount = outs.subgraphCount ∧
      (GetCapability graph outs).subgraphArray = outs.subgraphArray :=
  ⟨rfl, rfl, rfl⟩

/-! ## C6 -/

/-- C6 counterexample: a CPU-to-GPU copy whose source memory is CUDA-pinned
and which is given a stream performs the async copy with no stream
synchronize at all — refuting "every copy involving CUDA-pinned memory
synchronizes the stream before the copy is performed". -/
theorem C6_counterexample :
    CopyTensor DeviceType.cpu DeviceType.gpu MemType.cudaPinned true false
        = [CopyAction.memcpyAsync MemcpyKind.hostToDevice] ∧
      CopyAction.streamSynchronize true
          ∉ CopyTensor DeviceType.cpu DeviceType.gpu MemType.cudaPinned true false ∧
      CopyAction.streamSynchronize false
          ∉ CopyTensor DeviceType.cpu DeviceType.gpu MemType.cudaPinned true false := by
  decide

/-- C6 (amended): `CopyTensor` uses `cudaMemcpyDeviceToDevice` for every
GPU-to-GPU memcpy; CPU-to-GPU and GPU-to-CPU copies use the async variant
when a stream is supplied and otherwise a synchronous copy followed by a
null-stream synchronize; and a copy falling outside those three device
cases performs a host memcpy, preceded by a synchronize of the supplied
stream exactly when a stream is supplied and the source memory is
CUDA-pinned. -/
theorem C6_copyTensor_dispatch (srcDev dstDev : DeviceType) (srcMem : MemType)
    (hasStream srcEqDst : Bool) :
    (srcDev = DeviceType.gpu → dstDev = DeviceType.gpu →
      ∀ a ∈ CopyTensor srcDev dstDev srcMem hasStream srcEqDst,
        a.kind? = some MemcpyKind.deviceToDevice) ∧
    (srcDev = DeviceType.cpu → dstDev = DeviceType.gpu →
      CopyTensor srcDev dstDev srcMem hasStream srcEqDst =
        if hasStream then [CopyAction.memcpyAsync MemcpyKind.hostToDevice]
        else [CopyAction.memcpySync MemcpyKind.hostToDevice,
              CopyAction.streamSynchronize false]) ∧
    (srcDev = DeviceType.gpu → dstDev = DeviceType.cpu →
      CopyTensor srcDev dstDev srcMem hasStream srcEqDst =
        if hasStream then [CopyAction.memcpyAsync MemcpyKind.deviceToHost]
        else [CopyAction.memcpySync MemcpyKind.deviceToHost,
              CopyAction.streamSynchronize false]) ∧
    (¬ (srcDev = DeviceType.gpu ∧ dstDev = DeviceType.gpu) →
     ¬ (srcDev = DeviceType.cpu ∧ dstDev = DeviceType.gpu) →
     ¬ (srcDev = DeviceType.gpu ∧ dstDev = DeviceType.cpu) →
      (hasStream = true ∧ srcMem = MemType.cudaPinned →
        CopyTensor srcDev dstDev srcMem hasStream srcEqDst =
          [CopyAction.streamSynchronize true, CopyAction.hostMemcpy]) ∧
      (¬ (hasStream = true ∧ srcMem = MemType.cudaPinned) →
        CopyTensor srcDev dstDev srcMem hasStream srcEqDst =
          [CopyAction.hostMemcpy])) := by
  cases srcDev <;> cases dstDev <;> cases srcMem <;> cases hasStream <;>
    cases srcEqDst <;> exact ⟨by decide, by decide, by decide, by decide⟩

/-- Witness for `C6_copyTensor_dispatch` at a concrete input. -/
theorem C6_witness :
    CopyTensor DeviceType.cpu DeviceType.gpu MemType.other true false
      = [CopyAction.memcpyAsync MemcpyKind.hostToDevice] := by
  have h :=
    (C6_copyTensor_dispatch DeviceType.cpu DeviceType.gpu MemType.other true false).2.1
      rfl rfl
  simpa using h

/-! ## C2 -/

/-- C2 counterexample: a float64 execution-tensor input is not cast to
float32 — `BindContextInput` fails with the unsupported-type message — and
on builder-major 9 an int64 input is likewise rejected rather than cast to
int32. -/
theorem C2_counterexample :
    BindContextInput 9
        { inputName := "x", shapeInference := false, tensorType := ONNX_DOUBLE,
          elemCnt := 4, dataNonNull := true, setTensorAddressOk := true,
          setInputShapeOk := true }
      = (Status.fail (inputTypeNotSupportedMsg ONNX_DOUBLE), none) ∧
    BindContextInput 9
        { inputName := "x", shapeInference := false, tensorType := ONNX_INT64,
          elemCnt := 4, dataNonNull := true, setTensorAddressOk := true,
          setInputShapeOk := true }
      = (Status.fail (inputTypeNotSupportedMsg ONNX_INT64), none) := by
  constructor <;> rfl

/-- C2 (amended): for an execution-tensor input whose `setInputShape` call
succeeds, the element types float32, float16, bool, int8, uint8 and int32
are bound directly, int64 is bound directly exactly when the builder major
version is at least 10, and every other element type — including int64 on
builder-major < 10 and float64 — makes `BindContextInput` return a failure
status naming the unsupported type. -/
theorem C2_bindContextInput_types (trtMajor : Nat) (a : BindInputArgs)
    (hexec : a.shapeInference = false) (hshape : a.setInputShapeOk = true) :
    (trtSupportedElemType trtMajor a.tensorType = true →
      BindContextInput trtMajor a =
        (Status.ok,
          some (if a.dataNonNull ∧ 0 < a.elemCnt then BindInputAction.bindDirect
                else BindInputAction.bindScratchByte))) ∧
    (trtSupportedElemType trtMajor a.tensorType = false →
      BindContextInput trtMajor a =
        (Status.fail (inputTypeNotSupportedMsg a.tensorType), none)) := by
  constructor
  · intro hsupp
    simp [BindContextInput, hexec, hshape, hsupp]
    split <;> simp
  · intro hunsupp
    simp [BindContextInput, hexec, hshape, hunsupp]

/-- Witness for `C2_bindContextInput_types` at a concrete input. -/
theorem C2_witness :
    BindContextInput 10
        { inputName := "x", shapeInference := false, tensorType := ONNX_FLOAT,
          elemCnt := 4, dataNonNull := true, setTensorAddressOk := true,
          setInputShapeOk := true }
      = (Status.ok, some BindInputAction.bindDirect) := by
  have h :=
    (C2_bindContextInput_types 10
        { inputName := "x", shapeInference := false, tensorType := ONNX_FLOAT,
          elemCnt := 4, dataNonNull := true, setTensorAddressOk := true,
          setInputShapeOk := true } rfl rfl).1 (by decide)
  simpa using h

/-! ## C10 -/

theorem foldl_mul_zero_left (l : List Int) : l.foldl (· * ·) 0 = 0 := by
  induction l with
  | nil => rfl
  | cons x xs ih => simpa using ih

theorem foldl_mul_zero_mem {l : List Int} (h : (0 : Int) ∈ l) :
    ∀ a : Int, l.foldl (· * ·) a = 0 := by
  induction l with
  | nil => cases h
  | cons x xs ih =>
      intro a
      rcases List.mem_cons.mp h with h0 | h0
      · subst h0
        simpa using foldl_mul_zero_left xs
      · simpa using ih h0 (a * x)

/-- C10: for a data-dependent-shape output of a supported element type
whose allocator-recorded shape contains a zero dimension,
`BindKernelOutput` still requests the kernel-context output tensor of
exactly that shape, performs no device memory copy, and returns success. -/
theorem C10_bindKernelOutput_empty (trtMajor : Nat) (shape : List Int)
    (ty : Nat) (ptrNonNull : Bool)
    (hsupp : trtSupportedElemType trtMajor ty = true)
    (hzero : (0 : Int) ∈ shape) :
    BindKernelOutput trtMajor shape ty ptrNonNull =
      { status := Status.ok, requestedShape := shape, deviceCopy := false } := by
  have hcnt : ¬ (0 < GetElementCount shape) := by
    unfold GetElementCount
    by_cases hneg : shape.any (fun d => d < 0) = true
    · rw [if_pos hneg]; decide
    · rw [if_neg hneg, foldl_mul_zero_mem hzero 1]; decide
  have hd : decide (0 < GetElementCount shape) = false := decide_eq_false hcnt
  simp [BindKernelOutput, hsupp, hd]

/-- Witness for `C10_bindKernelOutput_empty` at a concrete input. -/
theorem C10_witness :
    BindKernelOutput 10 [2, 0, 4] ONNX_FLOAT true =
      { status := Status.ok, requestedShape := [2, 0, 4], deviceCopy := false } :=
  C10_bindKernelOutput_empty 10 [2, 0, 4] ONNX_FLOAT true (by decide) (by decide)

/-! ## C3 -/

/-- C3 counterexample: a call to `RefitEngine` with `path_check = false` and
an absolute ONNX model path proceeds to create the refitter and refit the
engine, returning success — refuting the claim for calls that do not enable
the path check. -/
theorem C3_counterexample :
    RefitEngine 10 "model.onnx" "/abs" false true true true false =
      { status := Status.ok,
        events := [RefitEvent.createRefitter, RefitEvent.refitFromFile,
                   RefitEvent.refitCudaEngine] } ∧
    IsAbsolutePath (fsAppend "/abs" "model.onnx") = true := by
  constructor <;> rfl

/-- C3 (amended): when the `path_check` flag is set, refit proceeds only if
the ONNX model path (the model folder path joined with the model file name)
is relative and free of `..` components: when that path is absolute or
climbs above its parent, `RefitEngine` returns a failure status and performs
no refitting call — no refitter is created and the engine is not refitted. -/
theorem C3_refitEngine_pathCheck (trtMajor : Nat) (fname folder : String)
    (modelFileExists refitFromFileOk refitCudaEngineOk serializeRefitted : Bool)
    (hbad : IsAbsolutePath (fsAppend folder fname) = true ∨
      IsRelativePathToParentPath (fsAppend folder fname) = true) :
    (RefitEngine trtMajor fname folder true modelFileExists refitFromFileOk
        refitCudaEngineOk serializeRefitted).events = [] ∧
    ∃ msg, (RefitEngine trtMajor fname folder true modelFileExists refitFromFileOk
        refitCudaEngineOk serializeRefitted).status = Status.fail msg := by
  unfold RefitEngine
  by_cases hv : trtMajor < 10
  · simp [hv]
  · by_cases habs : IsAbsolutePath (fsAppend folder fname) = true
    · simp [hv, habs]
    · rcases hbad with h | h
      · exact absurd h habs
      · simp [hv, habs, h]

/-- Witness for `C3_refitEngine_pathCheck` at a concrete input. -/
theorem C3_witness :
    (RefitEngine 10 "../model.onnx" "" true true true true false).events = [] ∧
    ∃ msg, (RefitEngine 10 "../model.onnx" "" true true true true
        false).status = Status.fail msg :=
  C3_refitEngine_pathCheck 10 "../model.onnx" "" true true true false
    (Or.inr (by decide))

/-! ## C4 -/

theorem pinLayerFp32_idem (l : TrtLayer) :
    pinLayerFp32 (pinLayerFp32 l) = pinLayerFp32 l := rfl

theorem powReduceMatch_bound {layers : List TrtLayer} {i : Nat}
    (h : powReduceMatch layers i = true) : i + 1 < layers.length := by
  unfold powReduceMatch at h
  simp only [Bool.and_eq_true, decide_eq_true_eq] at h
  exact h.1.1.1

theorem layerNormStep_length (layers : List TrtLayer) (i : Nat) :
    (layerNormStep layers i).length = layers.length := by
  unfold layerNormStep
  split <;> simp

theorem layerNormStep_getD (layers : List TrtLayer) (i k : Nat) :
    (layerNormStep layers i).getD k dfltLayer =
      if powReduceMatch layers i && (decide (k = i) || decide (k = i + 1)) then
        pinLayerFp32 (layers.getD k dfltLayer)
      else layers.getD k dfltLayer := by
  by_cases hm : powReduceMatch layers i = true
  · have hi1 : i + 1 < layers.length := powReduceMatch_bound hm
    have hi : i < layers.length := Nat.lt_of_succ_lt hi1
    unfold layerNormStep
    rw [if_pos hm]
    by_cases hk1 : k = i + 1
    · subst hk1
      rw [if_pos (by simp [hm])]
      rw [List.getD_eq_getElem?_getD,
        List.getElem?_set_eq_of_lt _ (by simpa using hi1)]
      simp [List.getD_eq_getElem?_getD, List.getElem?_eq_getElem hi1]
    · by_cases hk0 : k = i
      · subst hk0
        rw [if_pos (by simp [hm])]
        rw [List.getD_eq_getElem?_getD, List.getElem?_set_ne (by omega)]
        rw [List.getElem?_set_eq_of_lt _ hi]
        simp [List.getD_eq_getElem?_getD, List.getElem?_eq_getElem hi]
      · rw [if_neg (by simp [hk0, hk1])]
        rw [List.getD_eq_getElem?_getD, List.getElem?_set_ne (by omega),
          List.getElem?_set_ne (by omega), List.getD_eq_getElem?_getD]
  · unfold layerNormStep
    rw [if_neg hm, if_neg (by simp [hm])]

theorem layerNormStep_matchEq (layers : List TrtLayer) (i j : Nat) :
    powReduceMatch (layerNormStep layers i) j = powReduceMatch layers j := by
  have hty : ∀ k, ((layerNormStep layers i).getD k dfltLayer).ltype =
      (layers.getD k dfltLayer).ltype := by
    intro k
    rw [layerNormStep_getD]
    split <;> rfl
  have hop : ∀ k, ((layerNormStep layers i).getD k dfltLayer).op =
      (layers.getD k dfltLayer).op := by
    intro k
    rw [layerNormStep_getD]
    split <;> rfl
  unfold powReduceMatch
  rw [layerNormStep_length, hty j, hty (j + 1), hop j]

theorem guardFold_getD (idxs : List Nat) (layers : List TrtLayer) (k : Nat) :
    ((idxs.foldl layerNormStep layers).getD k dfltLayer) =
      if touchedByGuard layers idxs k then pinLayerFp32 (layers.getD k dfltLayer)
      else layers.getD k dfltLayer := by
  induction idxs generalizing layers with
  | nil => simp [touchedByGuard]
  | cons i rest ih =>
      have htouch : touchedByGuard (layerNormStep layers i) rest k =
          touchedByGuard layers rest k := by
        unfold touchedByGuard
        congr 1
        funext i'
        rw [layerNormStep_matchEq]
      show ((rest.foldl layerNormStep (layerNormStep layers i)).getD k dfltLayer) = _
      have hcons : touchedByGuard layers (i :: rest) k =
          ((powReduceMatch layers i && (decide (k = i) || decide (k = i + 1))) ||
            touchedByGuard layers rest k) := by
        unfold touchedByGuard
        rw [List.any_cons]
      rw [ih (layerNormStep layers i), htouch, layerNormStep_getD, hcons]
      cases hb1 : (powReduceMatch layers i && (decide (k = i) || decide (k = i + 1))) <;>
        cases hb2 : touchedByGuard layers rest k <;>
        simp [pinLayerFp32_idem]

/-- C4 counterexample: with `fp16_enable` and `layer_norm_fp32_fallback` both
set and a network whose layers 0 and 1 are an element-wise POW layer
immediately followed by a REDUCE layer, the guard leaves the network
unchanged — the loop starts at index 1, so the adjacent pair `(0, 1)` is
never examined and neither layer's precision is pinned to FP32. -/
theorem C4_counterexample :
    powReduceMatch [powLayer, reduceLayer] 0 = true ∧
    layerNormFp32Fallback true true [powLayer, reduceLayer] =
      [powLayer, reduceLayer] ∧
    ((layerNormFp32Fallback true true [powLayer, reduceLayer]).getD 0
        dfltLayer).precision = none := by
  refine ⟨by decide, by decide, by decide⟩

/-- C4 (amended): with `fp16_enable` and `layer_norm_fp32_fallback` both
set, for every adjacent layer pair at positions `(idx, idx+1)` with
`idx ≥ 1` in which an element-wise POW layer is immediately followed by a
REDUCE layer, the guard pins both layers' precision and output type to
FP32, and every layer not adjacent to such a matched pair (of the visited
indices) is left unchanged. -/
theorem C4_layerNormGuard (layers : List TrtLayer) (idx : Nat)
    (h1 : 1 ≤ idx) (hmatch : powReduceMatch layers idx = true) :
    ((layerNormFp32Fallback true true layers).getD idx dfltLayer =
        pinLayerFp32 (layers.getD idx dfltLayer) ∧
      (layerNormFp32Fallback true true layers).getD (idx + 1) dfltLayer =
        pinLayerFp32 (layers.getD (idx + 1) dfltLayer)) ∧
    ∀ k, touchedByGuard layers (List.range' 1 (layers.length - 2)) k = false →
      (layerNormFp32Fallback true true layers).getD k dfltLayer =
        layers.getD k dfltLayer := by
  have hdef : layerNormFp32Fallback true true layers =
      (List.range' 1 (layers.length - 2)).foldl layerNormStep layers := rfl
  have hbound := powReduceMatch_bound hmatch
  have hmem : idx ∈ List.range' 1 (layers.length - 2) := by
    rw [List.mem_range'_1]
    omega
  have ht1 : touchedByGuard layers (List.range' 1 (layers.length - 2)) idx = true := by
    unfold touchedByGuard
    rw [List.any_eq_true]
    exact ⟨idx, hmem, by simp [hmatch]⟩
  have ht2 : touchedByGuard layers (List.range' 1 (layers.length - 2)) (idx + 1)
      = true := by
    unfold touchedByGuard
    rw [List.any_eq_true]
    exact ⟨idx, hmem, by simp [hmatch]⟩
  refine ⟨⟨?_, ?_⟩, ?_⟩
  · rw [hdef, guardFold_getD, ht1]
    simp
  · rw [hdef, guardFold_getD, ht2]
    simp
  · intro k hk
    rw [hdef, guardFold_getD, hk]
    simp

/-- Witness for `C4_layerNormGuard` at a concrete input. -/
theorem C4_witness :
    (layerNormFp32Fallback true true [plainLayer, powLayer, reduceLayer]).getD 1
        dfltLayer =
      pinLayerFp32 ([plainLayer, powLayer, reduceLayer].getD 1 dfltLayer) ∧
    (layerNormFp32Fallback true true [plainLayer, powLayer, reduceLayer]).getD 2
        dfltLayer =
      pinLayerFp32 ([plainLayer, powLayer, reduceLayer].getD 2 dfltLayer) :=
  (C4_layerNormGuard [plainLayer, powLayer, reduceLayer] 1 (by decide)
    (by decide)).1

/-! ## C7 and C8 -/

theorem lock_not_in_outFinalize (trtMajor : Nat) (p : Nat × (Bool × Nat)) :
    ComputeEvent.lockProviderMutex ∉ outFinalizeEvents trtMajor p := by
  unfold outFinalizeEvents
  split
  · simp
  · split <;> simp

/-- C7: on no control path does the active compute function acquire the
per-provider mutex — the `std::lock_guard` at line 1966 is commented out
(with a TODO), although the source's own comment at lines 1964-1965 calls
the whole compute function a critical section.  This refutes the claim that
the entire compute-function body executes while holding the mutex. -/
theorem C7_computeFunc_no_mutex (a : ComputeFuncArgs) :
    ComputeEvent.lockProviderMutex ∉ ComputeFunc a := by
  unfold ComputeFunc
  by_cases he : a.enqueueOk <;> by_cases hm : a.contextMemSharing <;>
    by_cases hs : a.syncStreamAfterEnqueue <;>
      simp [he, hm, hs, lock_not_in_outFinalize] <;>
      (intro x i h
       rcases h with ⟨b, _, rfl⟩ | ⟨b, _, rfl⟩ <;> exact lock_not_in_outFinalize _ _)

/-- C8: at an argument record where CUDA-graph capture is eligible (capture
enabled, warm-up threshold reached, no graph captured yet), the compute
function performs no capture operation at all: it neither sets the stream
on the capture object, nor begins or ends capture, nor replays a captured
graph — the bodies of both capture `if`s (lines 2076-2077 and 2149-2156)
are commented out.  This refutes the claimed capture/replay behaviour. -/
theorem C8_captureEligible_no_capture_events :
    captureEligibleArgs.cudaGraphEnable = true ∧
    captureEligibleArgs.graphCaptureAllowed = true ∧
    captureEligibleArgs.graphCaptured = false ∧
    ComputeEvent.graphSetStream ∉ ComputeFunc captureEligibleArgs ∧
    ComputeEvent.graphCaptureBegin ∉ ComputeFunc captureEligibleArgs ∧
    ComputeEvent.graphCaptureEnd ∉ ComputeFunc captureEligibleArgs ∧
    ComputeEvent.graphReplay ∉ ComputeFunc captureEligibleArgs := by
  refine ⟨rfl, rfl, rfl, ?_, ?_, ?_, ?_⟩ <;> decide

/-! ## C1 and C5 -/

theorem applyProfile_none {numProfiles : Nat} {minS maxS optS : ProfileShapeMap}
    {inp : NetworkInput} {ranges : ShapeRangesMap}
    (h : alookup minS inp.name = none) :
    ApplyProfileShapesFromProviderOptions numProfiles minS maxS optS inp ranges
      = (false, ranges) := by
  unfold ApplyProfileShapesFromProviderOptions
  by_cases h0 : numProfiles = 0
  · rw [if_pos h0]
  · rw [if_neg h0, h]

theorem applyExplicit_none {he : Bool} {np : Nat} {minS maxS optS : ProfileShapeMap}
    {inp : NetworkInput} {r : ShapeRangesMap}
    (h : alookup minS inp.name = none) :
    applyExplicit he np minS maxS optS inp r = (false, r) := by
  unfold applyExplicit
  split
  · exact applyProfile_none h
  · rfl

theorem setDim_keys_self (m : ShapeRangesMap) (name : String) (j : Nat)
    (pv : List (List Int)) :
    name ∈ (setDim m name j pv).map Prod.fst := by
  unfold setDim
  exact alistInsert_keys_self _ _ _

theorem setDim_keys_mono (m : ShapeRangesMap) (name : String) (j : Nat)
    (pv : List (List Int)) (name' : String)
    (h : name' ∈ m.map Prod.fst) :
    name' ∈ (setDim m name j pv).map Prod.fst := by
  unfold setDim
  exact alistInsert_keys_mono _ _ _ _ h

theorem seedDims_preserves (nm : String) (dims : List Int)
    (acc : ShapeRangesMap × Bool) (name : String)
    (h : acc.2 = true ∧ name ∈ acc.1.map Prod.fst) :
    (seedDims nm dims acc).2 = true ∧
      name ∈ (seedDims nm dims acc).1.map Prod.fst := by
  unfold seedDims
  refine foldl_preserves
    (P := fun (acc : ShapeRangesMap × Bool) =>
      acc.2 = true ∧ name ∈ acc.1.map Prod.fst) ?_ _ _ h
  intro a j hj
  unfold seedDimStep
  split
  · exact ⟨rfl, setDim_keys_mono _ _ _ _ _ hj.2⟩
  · exact hj

theorem seedDims_establishes (nm : String) (dims : List Int)
    (hdyn : (-1 : Int) ∈ dims) (acc : ShapeRangesMap × Bool) :
    (seedDims nm dims acc).2 = true ∧
      nm ∈ (seedDims nm dims acc).1.map Prod.fst := by
  obtain ⟨j, hjlt, hjval⟩ := List.mem_iff_getElem.mp hdyn
  have hget : dims.getD j 0 = -1 := by
    rw [List.getD_eq_getElem?_getD, List.getElem?_eq_getElem hjlt]
    simpa using hjval
  unfold seedDims
  refine foldl_establishes
    (P := fun (acc : ShapeRangesMap × Bool) =>
      acc.2 = true ∧ nm ∈ acc.1.map Prod.fst)
    ?_ j ?_ _ _ (List.mem_range.mpr hjlt)
  · intro a b hab
    unfold seedDimStep
    split
    · exact ⟨rfl, setDim_keys_mono _ _ _ _ _ hab.2⟩
    · exact hab
  · intro a
    unfold seedDimStep
    rw [if_pos hget]
    exact ⟨rfl, setDim_keys_self _ _ _ _⟩

theorem seedOneInput_preserves {he : Bool} {np : Nat}
    {minS maxS optS : ProfileShapeMap} (st : ProfileSetupState)
    (inp : NetworkInput) (name : String)
    (h : st.hasDynamicShape = true ∧ name ∈ st.implicitRanges.map Prod.fst) :
    (seedOneInput he np minS maxS optS st inp).hasDynamicShape = true ∧
      name ∈ (seedOneInput he np minS maxS optS st inp).implicitRanges.map
        Prod.fst := by
  unfold seedOneInput
  split
  · exact h
  · split
    · exact ⟨rfl, setDim_keys_mono _ _ _ _ _ h.2⟩
    · exact seedDims_preserves _ _ _ _ h

theorem seedOneInput_establishes {he : Bool} {np : Nat}
    {minS maxS optS : ProfileShapeMap} (st : ProfileSetupState)
    (inp : NetworkInput)
    (hno : alookup minS inp.name = none)
    (hdy : inp.shapeTensor = true ∨ (-1 : Int) ∈ inp.dims) :
    (seedOneInput he np minS maxS optS st inp).hasDynamicShape = true ∧
      inp.name ∈ (seedOneInput he np minS maxS optS st inp).implicitRanges.map
        Prod.fst := by
  unfold seedOneInput
  rw [applyExplicit_none hno]
  dsimp only
  rw [if_neg Bool.false_ne_true]
  by_cases hsh : inp.shapeTensor = true
  · rw [if_pos hsh]
    exact ⟨rfl, setDim_keys_self _ _ _ _⟩
  · rw [if_neg hsh]
    rcases hdy with hdy | hdy
    · exact absurd hdy hsh
    · exact seedDims_establishes _ _ hdy _

theorem profileLoop_dyn (minS maxS optS : ProfileShapeMap)
    (inputs : List NetworkInput) (inp : NetworkInput) (hmem : inp ∈ inputs)
    (hno : alookup minS inp.name = none)
    (hdy : inp.shapeTensor = true ∨ (-1 : Int) ∈ inp.dims) :
    (profileSetupLoop minS maxS optS inputs).hasDynamicShape = true ∧
      inp.name ∈ (profileSetupLoop minS maxS optS inputs).implicitRanges.map
        Prod.fst := by
  unfold profileSetupLoop
  exact foldl_establishes
    (P := fun st => st.hasDynamicShape = true ∧
      inp.name ∈ st.implicitRanges.map Prod.fst)
    (fun a b hab => seedOneInput_preserves a b inp.name hab)
    inp (fun a => seedOneInput_establishes a inp hno hdy) inputs _ hmem

theorem setup_implicit_eq (minS maxS optS : ProfileShapeMap)
    (inputs : List NetworkInput) :
    (setupOptimizationProfiles minS maxS optS inputs).implicitRanges =
      (profileSetupLoop minS maxS optS inputs).implicitRanges := by
  unfold setupOptimizationProfiles
  split
  · split <;> rfl
  · rfl

theorem setup_engine_false (minS maxS optS : ProfileShapeMap)
    (inputs : List NetworkInput) :
    (setupOptimizationProfiles minS maxS optS inputs).engineBuiltAtCompileTime
      = false := by
  unfold setupOptimizationProfiles
  split
  · split <;> rfl
  · rfl

/-- C1: when the user supplies explicit min/max/opt profile shapes (all
three maps non-empty) and some dynamic-shape input has no explicit profile
associated with it, the profile-setup stage of
`CreateNodeComputeInfoFromGraph` returns a failure status whose message
enumerates the names of the inputs still lacking profiles (the keys of the
implicit shape-range store, among them the given input's name), adds no
optimization profile to the builder configuration, and installs no engine
for the node. -/
theorem C1_incompleteExplicitProfiles (minS maxS optS : ProfileShapeMap)
    (inputs : List NetworkInput)
    (hmin : minS ≠ []) (hmax : maxS ≠ []) (hopt : optS ≠ [])
    (inp : NetworkInput) (hmem : inp ∈ inputs)
    (hdyn : dynamicWithoutProfile minS inp) :
    (setupOptimizationProfiles minS maxS optS inputs).status =
      Status.fail (missingProfilesMsg
        ((setupOptimizationProfiles minS maxS optS inputs).implicitRanges.map
          Prod.fst)) ∧
    inp.name ∈
      (setupOptimizationProfiles minS maxS optS inputs).implicitRanges.map
        Prod.fst ∧
    (setupOptimizationProfiles minS maxS optS inputs).profilesAddedToConfig
      = 0 ∧
    (setupOptimizationProfiles minS maxS optS inputs).engineBuiltAtCompileTime
      = false := by
  have hflag : hasExplicitProfileFlag minS maxS optS = true := by
    simp [hasExplicitProfileFlag, List.isEmpty_iff, hmin, hmax, hopt]
  have hst := profileLoop_dyn minS maxS optS inputs inp hmem hdyn.1 hdyn.2
  unfold setupOptimizationProfiles
  rw [if_pos hflag, if_pos hst.1]
  exact ⟨rfl, hst.2, rfl, rfl⟩

/-- Witness for `C1_incompleteExplicitProfiles` at a concrete input: input
`"a"` has an explicit profile, dynamic input `"b"` has none. -/
theorem C1_witness :
    (setupOptimizationProfiles [("a", [[1]])] [("a", [[4]])] [("a", [[4]])]
        [⟨"a", false, [-1]⟩, ⟨"b", false, [-1]⟩]).status =
      Status.fail (missingProfilesMsg
        ((setupOptimizationProfiles [("a", [[1]])] [("a", [[4]])]
            [("a", [[4]])]
            [⟨"a", false, [-1]⟩, ⟨"b", false, [-1]⟩]).implicitRanges.map
          Prod.fst)) ∧
    "b" ∈
      (setupOptimizationProfiles [("a", [[1]])] [("a", [[4]])] [("a", [[4]])]
          [⟨"a", false, [-1]⟩, ⟨"b", false, [-1]⟩]).implicitRanges.map
        Prod.fst ∧
    (setupOptimizationProfiles [("a", [[1]])] [("a", [[4]])] [("a", [[4]])]
        [⟨"a", false, [-1]⟩, ⟨"b", false, [-1]⟩]).profilesAddedToConfig = 0 ∧
    (setupOptimizationProfiles [("a", [[1]])] [("a", [[4]])] [("a", [[4]])]
        [⟨"a", false, [-1]⟩,
          ⟨"b", false, [-1]⟩]).engineBuiltAtCompileTime = false :=
  C1_incompleteExplicitProfiles [("a", [[1]])] [("a", [[4]])] [("a", [[4]])]
    [⟨"a", false, [-1]⟩, ⟨"b", false, [-1]⟩] (by decide) (by decide) (by decide)
    ⟨"b", false, [-1]⟩ (by decide) ⟨by decide, by decide⟩

theorem seedDimStep_fold_getDim_other (nm : String) (dims : List Int)
    (name : String) (j : Nat) (hne : name ≠ nm) :
    ∀ (js : List Nat) (acc : ShapeRangesMap × Bool),
      getDim ((js.foldl (seedDimStep nm dims) acc).1) name j =
        getDim acc.1 name j := by
  intro js
  induction js with
  | nil => intro acc; rfl
  | cons j' rest ih =>
      intro acc
      rw [List.foldl_cons, ih]
      unfold seedDimStep
      split
      · exact getDim_setDim_ne _ _ _ _ _ _ (Or.inl hne)
      · rfl

theorem seedDimStep_fold_getDim_noIdx (nm : String) (dims : List Int) (j : Nat) :
    ∀ (js : List Nat), j ∉ js → ∀ (acc : ShapeRangesMap × Bool),
      getDim ((js.foldl (seedDimStep nm dims) acc).1) nm j =
        getDim acc.1 nm j := by
  intro js
  induction js with
  | nil => intro _ acc; rfl
  | cons j' rest ih =>
      intro hj acc
      have hj1 : j ≠ j' := fun h => hj (h ▸ List.mem_cons_self _ _)
      have hj2 : j ∉ rest := fun h => hj (List.mem_cons_of_mem _ h)
      rw [List.foldl_cons, ih hj2]
      unfold seedDimStep
      split
      · exact getDim_setDim_ne _ _ _ _ _ _ (Or.inr hj1)
      · rfl

theorem seedDimStep_fold_getDim_self (nm : String) (dims : List Int) (j : Nat)
    (hj : dims.getD j 0 = -1) :
    ∀ (js : List Nat), js.Nodup → j ∈ js → ∀ (acc : ShapeRangesMap × Bool),
      getDim ((js.foldl (seedDimStep nm dims) acc).1) nm j =
        some sentinelProfileVector := by
  intro js
  induction js with
  | nil => intro _ hmem; cases hmem
  | cons j' rest ih =>
      intro hnd hmem acc
      rcases List.mem_cons.mp hmem with heq | hmem'
      · rw [List.foldl_cons]
        have hnotin : j ∉ rest := by
          rw [heq]
          exact (List.nodup_cons.mp hnd).1
        rw [seedDimStep_fold_getDim_noIdx nm dims j rest hnotin]
        unfold seedDimStep
        rw [← heq, if_pos hj]
        exact getDim_setDim_self _ _ _ _
      · rw [List.foldl_cons]
        exact ih (List.nodup_cons.mp hnd).2 hmem' _

theorem seedOneInput_getDim_self {he : Bool} {np : Nat}
    {minS maxS optS : ProfileShapeMap} (st : ProfileSetupState)
    (inp : NetworkInput) (hno : alookup minS inp.name = none)
    (hsh : inp.shapeTensor = false) (j : Nat) (hjlt : j < inp.dims.length)
    (hjv : inp.dims.getD j 0 = -1) :
    getDim (seedOneInput he np minS maxS optS st inp).implicitRanges inp.name j
      = some sentinelProfileVector := by
  unfold seedOneInput
  rw [applyExplicit_none hno]
  dsimp only
  rw [if_neg Bool.false_ne_true]
  rw [if_neg (by simp [hsh])]
  unfold seedDims
  exact seedDimStep_fold_getDim_self inp.name inp.dims j hjv _
    (List.nodup_range _) (List.mem_range.mpr hjlt) _

theorem seedOneInput_getDim_other {he : Bool} {np : Nat}
    {minS maxS optS : ProfileShapeMap} (st : ProfileSetupState)
    (inp : NetworkInput) (name : String) (j : Nat)
    (hne : inp.name ≠ name) :
    getDim (seedOneInput he np minS maxS optS st inp).implicitRanges name j =
      getDim st.implicitRanges name j := by
  have hne' : name ≠ inp.name := fun h => hne h.symm
  unfold seedOneInput
  split
  · rfl
  · split
    · exact getDim_setDim_ne _ _ _ _ _ _ (Or.inl hne')
    · unfold seedDims
      exact seedDimStep_fold_getDim_other inp.name inp.dims name j hne' _ _

theorem profileFold_getDim_preserve {he : Bool} {np : Nat}
    {minS maxS optS : ProfileShapeMap} (name : String) (j : Nat) :
    ∀ (inputs : List NetworkInput) (st : ProfileSetupState),
      (∀ y ∈ inputs, y.name ≠ name) →
      getDim
          ((inputs.foldl (seedOneInput he np minS maxS optS) st).implicitRanges)
          name j
        = getDim st.implicitRanges name j := by
  intro inputs
  induction inputs with
  | nil => intro st _; rfl
  | cons x rest ih =>
      intro st hall
      rw [List.foldl_cons, ih _ (fun y hy => hall y (List.mem_cons_of_mem _ hy))]
      exact seedOneInput_getDim_other st x name j (hall x (List.mem_cons_self _ _))

theorem profileLoop_getDim {he : Bool} {np : Nat}
    {minS maxS optS : ProfileShapeMap} :
    ∀ (inputs : List NetworkInput) (st : ProfileSetupState)
      (inp : NetworkInput), inp ∈ inputs →
      (inputs.map NetworkInput.name).Nodup →
      alookup minS inp.name = none → inp.shapeTensor = false →
      ∀ j, j < inp.dims.length → inp.dims.getD j 0 = -1 →
      getDim
          ((inputs.foldl (seedOneInput he np minS maxS optS) st).implicitRanges)
          inp.name j
        = some sentinelProfileVector := by
  intro inputs
  induction inputs with
  | nil => intro st inp hmem; cases hmem
  | cons x rest ih =>
      intro st inp hmem hnd hno hsh j hjlt hjv
      have hnd' : (x.name :: rest.map NetworkInput.name).Nodup := by
        simpa using hnd
      rcases List.mem_cons.mp hmem with heq | hmem'
      · subst heq
        rw [List.foldl_cons]
        have hnames : ∀ y ∈ rest, y.name ≠ inp.name := by
          intro y hy h
          exact (List.nodup_cons.mp hnd').1 (h ▸ List.mem_map_of_mem _ hy)
        rw [profileFold_getDim_preserve inp.name j rest _ hnames]
        exact seedOneInput_getDim_self st inp hno hsh j hjlt hjv
      · rw [List.foldl_cons]
        exact ih _ inp hmem' (List.nodup_cons.mp hnd').2 hno hsh j hjlt hjv

/-- C5: every execution-tensor input dimension that is dynamic (`-1` in the
network definition) and whose input has no explicit user-supplied profile is
seeded in the implicit shape-range store, under (input name, dimension
index), with exactly the single sentinel triple `(INT_MAX, INT_MIN,
INT_MIN)`, and no engine is built at compile time for the subgraph. -/
theorem C5_sentinelSeeding (minS maxS optS : ProfileShapeMap)
    (inputs : List NetworkInput)
    (hnd : (inputs.map NetworkInput.name).Nodup)
    (inp : NetworkInput) (hmem : inp ∈ inputs)
    (hsh : inp.shapeTensor = false)
    (hno : alookup minS inp.name = none)
    (j : Nat) (hjlt : j < inp.dims.length) (hjv : inp.dims.getD j 0 = -1) :
    getDim (setupOptimizationProfiles minS maxS optS inputs).implicitRanges
        inp.name j = some [[INT_MAX, INT_MIN, INT_MIN]] ∧
    (setupOptimizationProfiles minS maxS optS inputs).engineBuiltAtCompileTime
      = false := by
  refine ⟨?_, setup_engine_false minS maxS optS inputs⟩
  rw [setup_implicit_eq]
  unfold profileSetupLoop
  exact profileLoop_getDim inputs _ inp hmem hnd hno hsh j hjlt hjv

/-- Witness for `C5_sentinelSeeding` at a concrete input. -/
theorem C5_witness :
    getDim (setupOptimizationProfiles [] [] []
        [⟨"x", false, [-1, 3]⟩]).implicitRanges "x" 0
      = some [[INT_MAX, INT_MIN, INT_MIN]] ∧
    (setupOptimizationProfiles [] [] []
        [⟨"x", false, [-1, 3]⟩]).engineBuiltAtCompileTime = false :=
  C5_sentinelSeeding [] [] [] [⟨"x", false, [-1, 3]⟩] (by decide)
    ⟨"x", false, [-1, 3]⟩ (by decide) rfl rfl 0 (by decide) (by decide)

end TrtEp
